import Mathlib

/-!
Verification of the GPS C/A (Gold code) generator `ca_code_gen.py`.

The source has two functions:

* `lfsr(seed, taps)` — a Python generator. Its body binds `state = seed`
  (an alias of the caller's list object, not a copy) and then loops:
  `feedback` is the XOR-fold over `zip(state, taps)` of the state bits whose
  tap is 1, `state.insert(0, feedback)` pushes the feedback bit at the
  front, and `yield state.pop()` removes and produces the last element.

* `ca_code_gen(sv)` — a Python generator. Its body (which only runs on the
  first `next()` call, not when `ca_code_gen(sv)` itself is called) builds
  the 32-row `init_codes` dict, creates `lfsr([1]*10, [0,0,1,0,0,0,0,0,0,1])`
  and `lfsr(init_codes[sv], [0,1,1,0,0,1,0,1,1,1])`, and then repeatedly
  yields `{0: -1, 1: 1}[next(lfsr1) ^ next(lfsr2)]`.

Two embeddings are developed:

* a pure, value-level one (`feedback`, `lfsrStep`, `lfsrState`, `lfsrOut`,
  `caChip`): the register content is threaded explicitly; faithful to the
  source whenever no other alias of the register list is mutated;

* a heap-level one (`Heap`, `lfsrNextH`, `caStartH`, `caPullsH`): Python
  lists are heap cells addressed by `Nat` references, so the aliasing that
  `state = seed` creates, and the freshness of the list literals that
  `ca_code_gen`'s body allocates on each run, are represented exactly.
-/

/-- Python `feedback = 0; for bit, tap in zip(state, taps): if tap == 1:
feedback ^= bit`. The XOR-fold over the zipped state/taps lists; `zip`
truncates to the shorter list, exactly as Python's `zip` does. -/
def feedback (state taps : List Nat) : Nat :=
  (state.zip taps).foldl (fun fb p => if p.2 = 1 then fb ^^^ p.1 else fb) 0

/-- One loop iteration of the `lfsr` generator body:
`state.insert(0, feedback)` then `yield state.pop()`. Returns the new
register content and the value produced (`pop` removes and returns the last
element of the list after the insertion). -/
def lfsrStep (taps state : List Nat) : List Nat × Nat :=
  let fb := feedback state taps
  ((fb :: state).dropLast, (fb :: state).getLastD 0)

/-- Register content after `n` values have been pulled from
`lfsr(seed, taps)` (value-level: the caller does not mutate the list). -/
def lfsrState (seed taps : List Nat) : Nat → List Nat
  | 0 => seed
  | n + 1 => (lfsrStep taps (lfsrState seed taps n)).1

/-- The `n`-th value (0-indexed) produced by `lfsr(seed, taps)`. -/
def lfsrOut (seed taps : List Nat) (n : Nat) : Nat :=
  (lfsrStep taps (lfsrState seed taps n)).2

/-- The `init_codes` dict of `ca_code_gen`: per-SV seed row for LFSR-2,
`none` for a key outside the dict (Python raises `KeyError` there). -/
def init_codes : Int → Option (List Nat)
  | 1 => some [1, 1, 1, 1, 1, 0, 1, 1, 0, 0]
  | 2 => some [1, 1, 1, 1, 0, 1, 1, 0, 0, 0]
  | 3 => some [1, 1, 1, 0, 1, 1, 0, 0, 0, 0]
  | 4 => some [1, 1, 0, 1, 1, 0, 0, 0, 0, 0]
  | 5 => some [0, 0, 1, 0, 0, 1, 0, 1, 1, 0]
  | 6 => some [0, 1, 0, 0, 1, 0, 1, 1, 0, 0]
  | 7 => some [0, 1, 1, 0, 0, 1, 0, 1, 1, 0]
  | 8 => some [1, 1, 0, 0, 1, 0, 1, 1, 0, 0]
  | 9 => some [1, 0, 0, 1, 0, 1, 1, 0, 0, 0]
  | 10 => some [1, 1, 0, 1, 1, 1, 0, 1, 0, 0]
  | 11 => some [1, 0, 1, 1, 1, 0, 1, 0, 0, 0]
  | 12 => some [1, 1, 1, 0, 1, 0, 0, 0, 0, 0]
  | 13 => some [1, 1, 0, 1, 0, 0, 0, 0, 0, 0]
  | 14 => some [1, 0, 1, 0, 0, 0, 0, 0, 0, 0]
  | 15 => some [0, 1, 0, 0, 0, 0, 0, 0, 0, 0]
  | 16 => some [1, 0, 0, 0, 0, 0, 0, 0, 0, 0]
  | 17 => some [1, 0, 0, 0, 1, 0, 0, 1, 1, 0]
  | 18 => some [0, 0, 0, 1, 0, 0, 1, 1, 0, 0]
  | 19 => some [0, 0, 1, 0, 0, 1, 1, 0, 0, 0]
  | 20 => some [0, 1, 0, 0, 1, 1, 0, 0, 0, 0]
  | 21 => some [1, 0, 0, 1, 1, 0, 0, 0, 0, 0]
  | 22 => some [0, 0, 1, 1, 0, 0, 0, 0, 0, 0]
  | 23 => some [0, 0, 1, 1, 0, 0, 1, 1, 1, 0]
  | 24 => some [1, 0, 0, 1, 1, 1, 0, 0, 0, 0]
  | 25 => some [0, 0, 1, 1, 1, 0, 0, 0, 0, 0]
  | 26 => some [0, 1, 1, 1, 0, 0, 0, 0, 0, 0]
  | 27 => some [1, 1, 1, 0, 0, 0, 0, 0, 0, 0]
  | 28 => some [1, 1, 0, 0, 0, 0, 0, 0, 0, 0]
  | 29 => some [0, 0, 0, 1, 0, 1, 0, 1, 1, 0]
  | 30 => some [0, 0, 1, 0, 1, 0, 1, 1, 0, 0]
  | 31 => some [0, 1, 0, 1, 0, 1, 1, 0, 0, 0]
  | 32 => some [1, 0, 1, 0, 1, 1, 0, 0, 0, 0]
  | _ => none

/-- LFSR-1 seed: Python `[1] * 10`. -/
def seed1 : List Nat := List.replicate 10 1

/-- LFSR-1 tap mask: feedback taps at positions 3 and 10 (1-indexed). -/
def taps1 : List Nat := [0, 0, 1, 0, 0, 0, 0, 0, 0, 1]

/-- LFSR-2 tap mask: feedback taps at positions 2, 3, 6, 8, 9, 10
(1-indexed). -/
def taps2 : List Nat := [0, 1, 1, 0, 0, 1, 0, 1, 1, 1]

/-- Python `{0: -1, 1: 1}[asymmetric]`: the dict lookup mapping the
combined bit to a bipolar chip; any other key would raise `KeyError`. -/
def chipMap : Nat → Option Int
  | 0 => some (-1)
  | 1 => some 1
  | _ => none

/-- The `n`-th chip (0-indexed) of the `ca_code_gen(sv)` sequence:
`none` models the `KeyError` on `init_codes[sv]` (or on the chip-map
lookup, unreachable for binary register contents). -/
def caChip (sv : Int) (n : Nat) : Option Int := do
  let row ← init_codes sv
  chipMap (lfsrOut seed1 taps1 n ^^^ lfsrOut row taps2 n)

/-- Specification form of the feedback bit (§4.1 step 1 of the design):
the XOR of the state bits at every position whose tap is 1, read off the
zipped state/taps list position by position. -/
def taggedXor : List (Nat × Nat) → Nat
  | [] => 0
  | p :: rest => if p.2 = 1 then p.1 ^^^ taggedXor rest else taggedXor rest

/-- A list of binary values (0/1). -/
def isBinary (l : List Nat) : Prop := ∀ b ∈ l, b = 0 ∨ b = 1

instance (l : List Nat) : Decidable (isBinary l) :=
  inferInstanceAs (Decidable (∀ b ∈ l, b = 0 ∨ b = 1))

/-- The first `n` values produced by `lfsr` from register content `seed`. -/
def lfsrOuts (seed taps : List Nat) : Nat → List Nat
  | 0 => []
  | n + 1 => (lfsrStep taps seed).2 :: lfsrOuts (lfsrStep taps seed).1 taps n

/-- The first `n` chips of the Gold-code combiner from register contents
`st1` (LFSR-1) and `st2` (LFSR-2). -/
def caChips (st1 st2 : List Nat) : Nat → List (Option Int)
  | 0 => []
  | n + 1 =>
      chipMap ((lfsrStep taps1 st1).2 ^^^ (lfsrStep taps2 st2).2) ::
        caChips (lfsrStep taps1 st1).1 (lfsrStep taps2 st2).1 n

/-! ### Heap-level embedding

Python lists are mutable objects on a heap. A `Heap` is the store of list
objects, addressed by `Nat` references; `lfsr`'s `state = seed` stores the
caller's reference (no copy), and `insert`/`pop` mutate the referenced
cell in place. -/

/-- The store of Python list objects; a reference is an index into it. -/
abbrev Heap := List (List Nat)

/-- Dereference a list object (out-of-range reads never occur in the
modelled runs; they default to the empty list). -/
def heapGet (h : Heap) (r : Nat) : List Nat := h.getD r []

/-- In-place update of the list object at reference `r`. -/
def heapSet (h : Heap) (r : Nat) (v : List Nat) : Heap := h.set r v

/-- Allocate a fresh list object, returning the new heap and its
reference. -/
def alloc (h : Heap) (v : List Nat) : Heap × Nat := (h ++ [v], h.length)

/-- An `lfsr(seed, taps)` generator object: `state = seed` binds the very
reference the caller passed, so the object holds `stateRef`, not a copy of
the list. -/
structure LfsrObj where
  stateRef : Nat
  taps : List Nat
deriving DecidableEq

/-- Python `lfsr(seed, taps)` applied to a list object: the generator
aliases the caller's list (the body's `state = seed` copies the reference
only). -/
def lfsr (seedRef : Nat) (taps : List Nat) : LfsrObj := ⟨seedRef, taps⟩

/-- One `next` on an `lfsr` generator: read the referenced register,
perform the insert/pop step, and write the result back through the same
reference. -/
def lfsrNextH (h : Heap) (o : LfsrObj) : Heap × Nat :=
  let s := lfsrStep o.taps (heapGet h o.stateRef)
  (heapSet h o.stateRef s.1, s.2)

/-- `n` successive `next`s on an `lfsr` generator: final heap and the list
of produced values. -/
def lfsrPullsH (h : Heap) (o : LfsrObj) : Nat → Heap × List Nat
  | 0 => (h, [])
  | n + 1 =>
      let s := lfsrNextH h o
      let rest := lfsrPullsH s.1 o n
      (rest.1, s.2 :: rest.2)

/-- A running `ca_code_gen` generator: its two `lfsr` generator objects. -/
structure CaObj where
  l1 : LfsrObj
  l2 : LfsrObj
deriving DecidableEq

/-- First resumption of the `ca_code_gen(sv)` body, up to the loop: the
`init_codes` dict literal is evaluated (fresh row lists on every run), the
lookup `init_codes[sv]` raises `KeyError` for a missing key, and the two
`lfsr` generators are created over freshly allocated lists — `[1] * 10`
and the selected dict row. -/
def caStartH (h : Heap) (sv : Int) : Option (Heap × CaObj) :=
  match init_codes sv with
  | none => none
  | some row =>
      let a1 := alloc h seed1
      let a2 := alloc a1.1 row
      some (a2.1, ⟨lfsr a1.2 taps1, lfsr a2.2 taps2⟩)

/-- One loop iteration of `ca_code_gen`: step both registers through the
heap and map the combined bit to a chip. -/
def caNextH (h : Heap) (o : CaObj) : Heap × Option Int :=
  let s1 := lfsrNextH h o.l1
  let s2 := lfsrNextH s1.1 o.l2
  (s2.1, chipMap (s1.2 ^^^ s2.2))

/-- `n` successive chips pulled from a running `ca_code_gen` generator. -/
def caPullsH (h : Heap) (o : CaObj) : Nat → Heap × List (Option Int)
  | 0 => (h, [])
  | n + 1 =>
      let s := caNextH h o
      let rest := caPullsH s.1 o n
      (rest.1, s.2 :: rest.2)

/-! ### Generator-object embedding of `ca_code_gen` construction

Calling a Python generator function raises nothing: it returns a generator
object capturing the arguments, and the body runs only when the first
value is requested. -/

/-- A Python exception of the embedded code. -/
inductive PyErr
  | keyError
deriving DecidableEq

/-- A suspended `ca_code_gen(sv)` generator object: only the argument is
captured; no line of the body has run. -/
structure CaCodeGen where
  sv : Int
deriving DecidableEq

/-- `ca_code_gen(sv)`: constructing the generator object. Total — no
lookup happens here, so no exception can be raised at this point. -/
def ca_code_gen (sv : Int) : CaCodeGen := ⟨sv⟩

/-- The first `next` on a `ca_code_gen` generator object: the body runs to
the first `yield` — it evaluates the `init_codes[sv]` lookup (raising
`KeyError` when `sv` is not a key) and otherwise produces the first
chip. -/
def caFirstChip (g : CaCodeGen) : Except PyErr Int :=
  match init_codes g.sv with
  | none => .error .keyError
  | some row =>
      match chipMap (lfsrOut seed1 taps1 0 ^^^ lfsrOut row taps2 0) with
      | none => .error .keyError
      | some c => .ok c

/-! ### Periodicity infrastructure (claim C1) -/

/-- Splitting an iteration count: the register after `m + n` steps is the
register after `m` further steps from the register after `n` steps. -/
lemma lfsrState_add (seed taps : List Nat) (m n : Nat) :
    lfsrState seed taps (m + n) = lfsrState (lfsrState seed taps n) taps m := by
  induction m with
  | zero => simp [lfsrState]
  | succ m ih =>
      rw [Nat.succ_add]
      show (lfsrStep taps (lfsrState seed taps (m + n))).1 = _
      rw [ih]
      rfl

/-- If the register returns to its seed after 1023 steps, the output stream
has period 1023. -/
lemma lfsrOut_period (seed taps : List Nat) (h : lfsrState seed taps 1023 = seed)
    (n : Nat) : lfsrOut seed taps (n + 1023) = lfsrOut seed taps n := by
  unfold lfsrOut
  rw [lfsrState_add, h]

set_option maxRecDepth 100000 in
/-- LFSR-1 (seed all ones, taps at 3 and 10) returns to its seed after 1023
steps; computed in three chunks of 341 steps to keep evaluation shallow. -/
lemma g1_period : lfsrState seed1 taps1 1023 = seed1 := by
  have h1 : lfsrState seed1 taps1 341 = [1, 1, 1, 0, 1, 0, 0, 1, 0, 0] := by decide
  have h2 : lfsrState [1, 1, 1, 0, 1, 0, 0, 1, 0, 0] taps1 341 = [0, 0, 0, 1, 0, 1, 1, 0, 1, 1] := by
    decide
  have h3 : lfsrState [0, 0, 0, 1, 0, 1, 1, 0, 1, 1] taps1 341 = seed1 := by decide
  have hsplit : (1023 : Nat) = 341 + (341 + 341) := by norm_num
  rw [hsplit, lfsrState_add, lfsrState_add, h1, h2, h3]

/-- A state reachable from a 1023-periodic state is itself 1023-periodic. -/
lemma period_of_reach (T s s' : List Nat) (d : Nat) (hp : lfsrState s T 1023 = s)
    (hr : lfsrState s T d = s') : lfsrState s' T 1023 = s' := by
  rw [← hr, ← lfsrState_add, Nat.add_comm 1023 d, lfsrState_add, hp]

set_option maxRecDepth 100000 in
/-- The SV 1 seed row returns to itself after 1023 steps of LFSR-2. -/
lemma row_period_1 : lfsrState [1, 1, 1, 1, 1, 0, 1, 1, 0, 0] taps2 1023
    = [1, 1, 1, 1, 1, 0, 1, 1, 0, 0] := by
  have h1 : lfsrState [1, 1, 1, 1, 1, 0, 1, 1, 0, 0] taps2 341
      = [1, 1, 0, 1, 1, 1, 1, 0, 0, 1] := by decide
  have h2 : lfsrState [1, 1, 0, 1, 1, 1, 1, 0, 0, 1] taps2 341
      = [0, 0, 1, 0, 0, 1, 0, 1, 0, 1] := by decide
  have h3 : lfsrState [0, 0, 1, 0, 0, 1, 0, 1, 0, 1] taps2 341
      = [1, 1, 1, 1, 1, 0, 1, 1, 0, 0] := by decide
  have hsplit : (1023 : Nat) = 341 + (341 + 341) := by norm_num
  rw [hsplit, lfsrState_add, lfsrState_add, h1, h2, h3]
set_option maxRecDepth 100000 in
/-- The SV 32 seed row is 1023-periodic: it lies 166 steps after the SV 1 row on the same LFSR-2 cycle. -/
lemma row_period_32 : lfsrState [1, 0, 1, 0, 1, 1, 0, 0, 0, 0] taps2 1023 = [1, 0, 1, 0, 1, 1, 0, 0, 0, 0] :=
  period_of_reach taps2 [1, 1, 1, 1, 1, 0, 1, 1, 0, 0] [1, 0, 1, 0, 1, 1, 0, 0, 0, 0] 166 row_period_1 (by decide)

set_option maxRecDepth 100000 in
/-- The SV 31 seed row is 1023-periodic: it lies 1 steps after the SV 32 row on the same LFSR-2 cycle. -/
lemma row_period_31 : lfsrState [0, 1, 0, 1, 0, 1, 1, 0, 0, 0] taps2 1023 = [0, 1, 0, 1, 0, 1, 1, 0, 0, 0] :=
  period_of_reach taps2 [1, 0, 1, 0, 1, 1, 0, 0, 0, 0] [0, 1, 0, 1, 0, 1, 1, 0, 0, 0] 1 row_period_32 (by decide)

set_option maxRecDepth 100000 in
/-- The SV 30 seed row is 1023-periodic: it lies 1 steps after the SV 31 row on the same LFSR-2 cycle. -/
lemma row_period_30 : lfsrState [0, 0, 1, 0, 1, 0, 1, 1, 0, 0] taps2 1023 = [0, 0, 1, 0, 1, 0, 1, 1, 0, 0] :=
  period_of_reach taps2 [0, 1, 0, 1, 0, 1, 1, 0, 0, 0] [0, 0, 1, 0, 1, 0, 1, 1, 0, 0] 1 row_period_31 (by decide)

set_option maxRecDepth 100000 in
/-- The SV 29 seed row is 1023-periodic: it lies 1 steps after the SV 30 row on the same LFSR-2 cycle. -/
lemma row_period_29 : lfsrState [0, 0, 0, 1, 0, 1, 0, 1, 1, 0] taps2 1023 = [0, 0, 0, 1, 0, 1, 0, 1, 1, 0] :=
  period_of_reach taps2 [0, 0, 1, 0, 1, 0, 1, 1, 0, 0] [0, 0, 0, 1, 0, 1, 0, 1, 1, 0] 1 row_period_30 (by decide)

set_option maxRecDepth 100000 in
/-- The SV 28 seed row is 1023-periodic: it lies 343 steps after the SV 29 row on the same LFSR-2 cycle. -/
lemma row_period_28 : lfsrState [1, 1, 0, 0, 0, 0, 0, 0, 0, 0] taps2 1023 = [1, 1, 0, 0, 0, 0, 0, 0, 0, 0] :=
  period_of_reach taps2 [0, 0, 0, 1, 0, 1, 0, 1, 1, 0] [1, 1, 0, 0, 0, 0, 0, 0, 0, 0] 343 row_period_29 (by decide)

set_option maxRecDepth 100000 in
/-- The SV 27 seed row is 1023-periodic: it lies 1 steps after the SV 28 row on the same LFSR-2 cycle. -/
lemma row_period_27 : lfsrState [1, 1, 1, 0, 0, 0, 0, 0, 0, 0] taps2 1023 = [1, 1, 1, 0, 0, 0, 0, 0, 0, 0] :=
  period_of_reach taps2 [1, 1, 0, 0, 0, 0, 0, 0, 0, 0] [1, 1, 1, 0, 0, 0, 0, 0, 0, 0] 1 row_period_28 (by decide)

set_option maxRecDepth 100000 in
/-- The SV 26 seed row is 1023-periodic: it lies 1 steps after the SV 27 row on the same LFSR-2 cycle. -/
lemma row_period_26 : lfsrState [0, 1, 1, 1, 0, 0, 0, 0, 0, 0] taps2 1023 = [0, 1, 1, 1, 0, 0, 0, 0, 0, 0] :=
  period_of_reach taps2 [1, 1, 1, 0, 0, 0, 0, 0, 0, 0] [0, 1, 1, 1, 0, 0, 0, 0, 0, 0] 1 row_period_27 (by decide)

set_option maxRecDepth 100000 in
/-- The SV 25 seed row is 1023-periodic: it lies 1 steps after the SV 26 row on the same LFSR-2 cycle. -/
lemma row_period_25 : lfsrState [0, 0, 1, 1, 1, 0, 0, 0, 0, 0] taps2 1023 = [0, 0, 1, 1, 1, 0, 0, 0, 0, 0] :=
  period_of_reach taps2 [0, 1, 1, 1, 0, 0, 0, 0, 0, 0] [0, 0, 1, 1, 1, 0, 0, 0, 0, 0] 1 row_period_26 (by decide)

set_option maxRecDepth 100000 in
/-- The SV 24 seed row is 1023-periodic: it lies 1 steps after the SV 25 row on the same LFSR-2 cycle. -/
lemma row_period_24 : lfsrState [1, 0, 0, 1, 1, 1, 0, 0, 0, 0] taps2 1023 = [1, 0, 0, 1, 1, 1, 0, 0, 0, 0] :=
  period_of_reach taps2 [0, 0, 1, 1, 1, 0, 0, 0, 0, 0] [1, 0, 0, 1, 1, 1, 0, 0, 0, 0] 1 row_period_25 (by decide)

set_option maxRecDepth 100000 in
/-- The SV 23 seed row is 1023-periodic: it lies 3 steps after the SV 24 row on the same LFSR-2 cycle. -/
lemma row_period_23 : lfsrState [0, 0, 1, 1, 0, 0, 1, 1, 1, 0] taps2 1023 = [0, 0, 1, 1, 0, 0, 1, 1, 1, 0] :=
  period_of_reach taps2 [1, 0, 0, 1, 1, 1, 0, 0, 0, 0] [0, 0, 1, 1, 0, 0, 1, 1, 1, 0] 3 row_period_24 (by decide)

set_option maxRecDepth 100000 in
/-- The SV 22 seed row is 1023-periodic: it lies 35 steps after the SV 23 row on the same LFSR-2 cycle. -/
lemma row_period_22 : lfsrState [0, 0, 1, 1, 0, 0, 0, 0, 0, 0] taps2 1023 = [0, 0, 1, 1, 0, 0, 0, 0, 0, 0] :=
  period_of_reach taps2 [0, 0, 1, 1, 0, 0, 1, 1, 1, 0] [0, 0, 1, 1, 0, 0, 0, 0, 0, 0] 35 row_period_23 (by decide)

set_option maxRecDepth 100000 in
/-- The SV 21 seed row is 1023-periodic: it lies 1 steps after the SV 22 row on the same LFSR-2 cycle. -/
lemma row_period_21 : lfsrState [1, 0, 0, 1, 1, 0, 0, 0, 0, 0] taps2 1023 = [1, 0, 0, 1, 1, 0, 0, 0, 0, 0] :=
  period_of_reach taps2 [0, 0, 1, 1, 0, 0, 0, 0, 0, 0] [1, 0, 0, 1, 1, 0, 0, 0, 0, 0] 1 row_period_22 (by decide)

set_option maxRecDepth 100000 in
/-- The SV 20 seed row is 1023-periodic: it lies 1 steps after the SV 21 row on the same LFSR-2 cycle. -/
lemma row_period_20 : lfsrState [0, 1, 0, 0, 1, 1, 0, 0, 0, 0] taps2 1023 = [0, 1, 0, 0, 1, 1, 0, 0, 0, 0] :=
  period_of_reach taps2 [1, 0, 0, 1, 1, 0, 0, 0, 0, 0] [0, 1, 0, 0, 1, 1, 0, 0, 0, 0] 1 row_period_21 (by decide)

set_option maxRecDepth 100000 in
/-- The SV 19 seed row is 1023-periodic: it lies 1 steps after the SV 20 row on the same LFSR-2 cycle. -/
lemma row_period_19 : lfsrState [0, 0, 1, 0, 0, 1, 1, 0, 0, 0] taps2 1023 = [0, 0, 1, 0, 0, 1, 1, 0, 0, 0] :=
  period_of_reach taps2 [0, 1, 0, 0, 1, 1, 0, 0, 0, 0] [0, 0, 1, 0, 0, 1, 1, 0, 0, 0] 1 row_period_20 (by decide)

set_option maxRecDepth 100000 in
/-- The SV 18 seed row is 1023-periodic: it lies 1 steps after the SV 19 row on the same LFSR-2 cycle. -/
lemma row_period_18 : lfsrState [0, 0, 0, 1, 0, 0, 1, 1, 0, 0] taps2 1023 = [0, 0, 0, 1, 0, 0, 1, 1, 0, 0] :=
  period_of_reach taps2 [0, 0, 1, 0, 0, 1, 1, 0, 0, 0] [0, 0, 0, 1, 0, 0, 1, 1, 0, 0] 1 row_period_19 (by decide)

set_option maxRecDepth 100000 in
/-- The SV 17 seed row is 1023-periodic: it lies 1 steps after the SV 18 row on the same LFSR-2 cycle. -/
lemma row_period_17 : lfsrState [1, 0, 0, 0, 1, 0, 0, 1, 1, 0] taps2 1023 = [1, 0, 0, 0, 1, 0, 0, 1, 1, 0] :=
  period_of_reach taps2 [0, 0, 0, 1, 0, 0, 1, 1, 0, 0] [1, 0, 0, 0, 1, 0, 0, 1, 1, 0] 1 row_period_18 (by decide)

set_option maxRecDepth 100000 in
/-- The SV 16 seed row is 1023-periodic: it lies 211 steps after the SV 17 row on the same LFSR-2 cycle. -/
lemma row_period_16 : lfsrState [1, 0, 0, 0, 0, 0, 0, 0, 0, 0] taps2 1023 = [1, 0, 0, 0, 0, 0, 0, 0, 0, 0] :=
  period_of_reach taps2 [1, 0, 0, 0, 1, 0, 0, 1, 1, 0] [1, 0, 0, 0, 0, 0, 0, 0, 0, 0] 211 row_period_17 (by decide)

set_option maxRecDepth 100000 in
/-- The SV 15 seed row is 1023-periodic: it lies 1 steps after the SV 16 row on the same LFSR-2 cycle. -/
lemma row_period_15 : lfsrState [0, 1, 0, 0, 0, 0, 0, 0, 0, 0] taps2 1023 = [0, 1, 0, 0, 0, 0, 0, 0, 0, 0] :=
  period_of_reach taps2 [1, 0, 0, 0, 0, 0, 0, 0, 0, 0] [0, 1, 0, 0, 0, 0, 0, 0, 0, 0] 1 row_period_16 (by decide)

set_option maxRecDepth 100000 in
/-- The SV 14 seed row is 1023-periodic: it lies 1 steps after the SV 15 row on the same LFSR-2 cycle. -/
lemma row_period_14 : lfsrState [1, 0, 1, 0, 0, 0, 0, 0, 0, 0] taps2 1023 = [1, 0, 1, 0, 0, 0, 0, 0, 0, 0] :=
  period_of_reach taps2 [0, 1, 0, 0, 0, 0, 0, 0, 0, 0] [1, 0, 1, 0, 0, 0, 0, 0, 0, 0] 1 row_period_15 (by decide)

set_option maxRecDepth 100000 in
/-- The SV 13 seed row is 1023-periodic: it lies 1 steps after the SV 14 row on the same LFSR-2 cycle. -/
lemma row_period_13 : lfsrState [1, 1, 0, 1, 0, 0, 0, 0, 0, 0] taps2 1023 = [1, 1, 0, 1, 0, 0, 0, 0, 0, 0] :=
  period_of_reach taps2 [1, 0, 1, 0, 0, 0, 0, 0, 0, 0] [1, 1, 0, 1, 0, 0, 0, 0, 0, 0] 1 row_period_14 (by decide)

set_option maxRecDepth 100000 in
/-- The SV 12 seed row is 1023-periodic: it lies 1 steps after the SV 13 row on the same LFSR-2 cycle. -/
lemma row_period_12 : lfsrState [1, 1, 1, 0, 1, 0, 0, 0, 0, 0] taps2 1023 = [1, 1, 1, 0, 1, 0, 0, 0, 0, 0] :=
  period_of_reach taps2 [1, 1, 0, 1, 0, 0, 0, 0, 0, 0] [1, 1, 1, 0, 1, 0, 0, 0, 0, 0] 1 row_period_13 (by decide)

set_option maxRecDepth 100000 in
/-- The SV 11 seed row is 1023-periodic: it lies 2 steps after the SV 12 row on the same LFSR-2 cycle. -/
lemma row_period_11 : lfsrState [1, 0, 1, 1, 1, 0, 1, 0, 0, 0] taps2 1023 = [1, 0, 1, 1, 1, 0, 1, 0, 0, 0] :=
  period_of_reach taps2 [1, 1, 1, 0, 1, 0, 0, 0, 0, 0] [1, 0, 1, 1, 1, 0, 1, 0, 0, 0] 2 row_period_12 (by decide)

set_option maxRecDepth 100000 in
/-- The SV 10 seed row is 1023-periodic: it lies 1 steps after the SV 11 row on the same LFSR-2 cycle. -/
lemma row_period_10 : lfsrState [1, 1, 0, 1, 1, 1, 0, 1, 0, 0] taps2 1023 = [1, 1, 0, 1, 1, 1, 0, 1, 0, 0] :=
  period_of_reach taps2 [1, 0, 1, 1, 1, 0, 1, 0, 0, 0] [1, 1, 0, 1, 1, 1, 0, 1, 0, 0] 1 row_period_11 (by decide)

set_option maxRecDepth 100000 in
/-- The SV 9 seed row is 1023-periodic: it lies 110 steps after the SV 10 row on the same LFSR-2 cycle. -/
lemma row_period_9 : lfsrState [1, 0, 0, 1, 0, 1, 1, 0, 0, 0] taps2 1023 = [1, 0, 0, 1, 0, 1, 1, 0, 0, 0] :=
  period_of_reach taps2 [1, 1, 0, 1, 1, 1, 0, 1, 0, 0] [1, 0, 0, 1, 0, 1, 1, 0, 0, 0] 110 row_period_10 (by decide)

set_option maxRecDepth 100000 in
/-- The SV 8 seed row is 1023-periodic: it lies 1 steps after the SV 9 row on the same LFSR-2 cycle. -/
lemma row_period_8 : lfsrState [1, 1, 0, 0, 1, 0, 1, 1, 0, 0] taps2 1023 = [1, 1, 0, 0, 1, 0, 1, 1, 0, 0] :=
  period_of_reach taps2 [1, 0, 0, 1, 0, 1, 1, 0, 0, 0] [1, 1, 0, 0, 1, 0, 1, 1, 0, 0] 1 row_period_9 (by decide)

set_option maxRecDepth 100000 in
/-- The SV 7 seed row is 1023-periodic: it lies 1 steps after the SV 8 row on the same LFSR-2 cycle. -/
lemma row_period_7 : lfsrState [0, 1, 1, 0, 0, 1, 0, 1, 1, 0] taps2 1023 = [0, 1, 1, 0, 0, 1, 0, 1, 1, 0] :=
  period_of_reach taps2 [1, 1, 0, 0, 1, 0, 1, 1, 0, 0] [0, 1, 1, 0, 0, 1, 0, 1, 1, 0] 1 row_period_8 (by decide)

set_option maxRecDepth 100000 in
/-- The SV 6 seed row is 1023-periodic: it lies 121 steps after the SV 7 row on the same LFSR-2 cycle. -/
lemma row_period_6 : lfsrState [0, 1, 0, 0, 1, 0, 1, 1, 0, 0] taps2 1023 = [0, 1, 0, 0, 1, 0, 1, 1, 0, 0] :=
  period_of_reach taps2 [0, 1, 1, 0, 0, 1, 0, 1, 1, 0] [0, 1, 0, 0, 1, 0, 1, 1, 0, 0] 121 row_period_7 (by decide)

set_option maxRecDepth 100000 in
/-- The SV 5 seed row is 1023-periodic: it lies 1 steps after the SV 6 row on the same LFSR-2 cycle. -/
lemma row_period_5 : lfsrState [0, 0, 1, 0, 0, 1, 0, 1, 1, 0] taps2 1023 = [0, 0, 1, 0, 0, 1, 0, 1, 1, 0] :=
  period_of_reach taps2 [0, 1, 0, 0, 1, 0, 1, 1, 0, 0] [0, 0, 1, 0, 0, 1, 0, 1, 1, 0] 1 row_period_6 (by decide)

set_option maxRecDepth 100000 in
/-- The SV 4 seed row is 1023-periodic: it lies 9 steps after the SV 5 row on the same LFSR-2 cycle. -/
lemma row_period_4 : lfsrState [1, 1, 0, 1, 1, 0, 0, 0, 0, 0] taps2 1023 = [1, 1, 0, 1, 1, 0, 0, 0, 0, 0] :=
  period_of_reach taps2 [0, 0, 1, 0, 0, 1, 0, 1, 1, 0] [1, 1, 0, 1, 1, 0, 0, 0, 0, 0] 9 row_period_5 (by decide)

set_option maxRecDepth 100000 in
/-- The SV 3 seed row is 1023-periodic: it lies 1 steps after the SV 4 row on the same LFSR-2 cycle. -/
lemma row_period_3 : lfsrState [1, 1, 1, 0, 1, 1, 0, 0, 0, 0] taps2 1023 = [1, 1, 1, 0, 1, 1, 0, 0, 0, 0] :=
  period_of_reach taps2 [1, 1, 0, 1, 1, 0, 0, 0, 0, 0] [1, 1, 1, 0, 1, 1, 0, 0, 0, 0] 1 row_period_4 (by decide)

set_option maxRecDepth 100000 in
/-- The SV 2 seed row is 1023-periodic: it lies 1 steps after the SV 3 row on the same LFSR-2 cycle. -/
lemma row_period_2 : lfsrState [1, 1, 1, 1, 0, 1, 1, 0, 0, 0] taps2 1023 = [1, 1, 1, 1, 0, 1, 1, 0, 0, 0] :=
  period_of_reach taps2 [1, 1, 1, 0, 1, 1, 0, 0, 0, 0] [1, 1, 1, 1, 0, 1, 1, 0, 0, 0] 1 row_period_3 (by decide)


/-! ### The step contract: feedback, eviction, length (claims C2, C7) -/

/-- The source's XOR-accumulator loop computes `taggedXor` of the zipped
list, for any starting accumulator. -/
lemma foldl_xor_acc (l : List (Nat × Nat)) :
    ∀ acc, l.foldl (fun fb p => if p.2 = 1 then fb ^^^ p.1 else fb) acc
      = acc ^^^ taggedXor l := by
  induction l with
  | nil => intro acc; simp [taggedXor]
  | cons p rest ih =>
      intro acc
      by_cases hp : p.2 = 1
      · simp [taggedXor, hp, ih, Nat.xor_assoc]
      · simp [taggedXor, hp, ih]

/-- The feedback bit of the source is the XOR of the state bits at the
tapped positions. -/
lemma feedback_eq_taggedXor (state taps : List Nat) :
    feedback state taps = taggedXor (state.zip taps) := by
  unfold feedback
  rw [foldl_xor_acc, Nat.zero_xor]

/-- On a nonempty register, a step evicts and outputs the previous last
bit and prepends the feedback bit. -/
lemma lfsrStep_eq (taps state : List Nat) (h : state ≠ []) :
    lfsrStep taps state
      = (feedback state taps :: state.dropLast, state.getLastD 0) := by
  obtain ⟨a, t, rfl⟩ : ∃ a t, state = a :: t := by
    cases state with
    | nil => exact absurd rfl h
    | cons a t => exact ⟨a, t, rfl⟩
  simp only [lfsrStep, List.dropLast_cons₂, List.getLastD_cons]

/-- A step never changes the register length (one bit in, one bit out). -/
lemma lfsrStep_length (taps st : List Nat) :
    (lfsrStep taps st).1.length = st.length := by
  simp [lfsrStep]

/-! ### Binary contents are invariant (claim C8) -/

/-- XOR of two bits is a bit. -/
lemma xor_binary {a b : Nat} (ha : a = 0 ∨ a = 1) (hb : b = 0 ∨ b = 1) :
    a ^^^ b = 0 ∨ a ^^^ b = 1 := by
  rcases ha with rfl | rfl <;> rcases hb with rfl | rfl <;> simp

/-- The feedback bit of a binary register is a bit, whatever the taps. -/
lemma feedback_binary (state taps : List Nat) (hb : isBinary state) :
    feedback state taps = 0 ∨ feedback state taps = 1 := by
  rw [feedback_eq_taggedXor]
  have main : ∀ l : List (Nat × Nat), (∀ p ∈ l, p.1 = 0 ∨ p.1 = 1) →
      taggedXor l = 0 ∨ taggedXor l = 1 := by
    intro l
    induction l with
    | nil => intro _; left; rfl
    | cons p rest ih =>
        intro h
        by_cases hp : p.2 = 1
        · simp only [taggedXor, hp, if_pos]
          exact xor_binary (h p (by simp)) (ih fun q hq => h q (by simp [hq]))
        · simp only [taggedXor, hp, if_neg, ite_false]
          exact ih fun q hq => h q (by simp [hq])
  refine main _ fun p hp => hb p.1 ?_
  exact (List.of_mem_zip (by simpa using hp)).1

/-- A step of a binary register yields a binary register. -/
lemma lfsrStep_binary (taps st : List Nat) (hb : isBinary st) :
    isBinary (lfsrStep taps st).1 := by
  intro b hbm
  have : b ∈ feedback st taps :: st := List.dropLast_subset _ hbm
  rcases List.mem_cons.mp this with rfl | hmem
  · exact feedback_binary st taps hb
  · exact hb b hmem

/-- The register of `lfsr` stays binary forever. -/
lemma lfsrState_binary (seed taps : List Nat) (hb : isBinary seed) :
    ∀ n, isBinary (lfsrState seed taps n)
  | 0 => hb
  | n + 1 => lfsrStep_binary taps _ (lfsrState_binary seed taps hb n)

/-- Every raw value produced by `lfsr` from a binary register is a bit. -/
lemma lfsrOut_binary (seed taps : List Nat) (hb : isBinary seed) (n : Nat) :
    lfsrOut seed taps n = 0 ∨ lfsrOut seed taps n = 1 := by
  have hstate := lfsrState_binary seed taps hb n
  unfold lfsrOut lfsrStep
  simp only
  have hcons : isBinary (feedback (lfsrState seed taps n) taps
      :: lfsrState seed taps n) := by
    intro b hbm
    rcases List.mem_cons.mp hbm with rfl | hmem
    · exact feedback_binary _ _ hstate
    · exact hstate b hmem
  have hne : feedback (lfsrState seed taps n) taps
      :: lfsrState seed taps n ≠ [] := by simp
  rw [List.getLastD_eq_getLast?, List.getLast?_eq_getLast _ hne]
  exact hcons _ (List.getLast_mem hne)

/-! ### Heap lemmas -/

/-- Reading back an in-range in-place update. -/
lemma heapGet_set_self : ∀ (h : Heap) (r : Nat) (v : List Nat),
    r < h.length → heapGet (heapSet h r v) r = v := by
  intro h
  induction h with
  | nil => intro r v hr; simp at hr
  | cons c rest ih =>
      intro r v hr
      cases r with
      | zero => rfl
      | succ r => exact ih r v (by simpa using hr)

/-- An in-place update leaves every other list object untouched. -/
lemma heapGet_set_other : ∀ (h : Heap) (r r' : Nat) (v : List Nat),
    r' ≠ r → heapGet (heapSet h r v) r' = heapGet h r' := by
  intro h
  induction h with
  | nil => intro r r' v _; cases r <;> rfl
  | cons c rest ih =>
      intro r r' v hne
      cases r with
      | zero =>
          cases r' with
          | zero => exact absurd rfl hne
          | succ r' => rfl
      | succ r =>
          cases r' with
          | zero => rfl
          | succ r' => exact ih r r' v (by omega)

/-- An in-place update does not change the number of allocated objects. -/
lemma heapSet_length (h : Heap) (r : Nat) (v : List Nat) :
    (heapSet h r v).length = h.length := List.length_set h r v

/-- Reading an object that existed before objects were appended. -/
lemma heapGet_append_left : ∀ (h t : Heap) (r : Nat), r < h.length →
    heapGet (h ++ t) r = heapGet h r := by
  intro h
  induction h with
  | nil => intro t r hr; simp at hr
  | cons c rest ih =>
      intro t r hr
      cases r with
      | zero => rfl
      | succ r => exact ih t r (by simpa using hr)

/-- Reading the first object appended past the old heap. -/
lemma heapGet_append_self : ∀ (h : Heap) (v : List Nat) (t : Heap),
    heapGet (h ++ v :: t) h.length = v := by
  intro h
  induction h with
  | nil => intro v t; rfl
  | cons c rest ih => intro v t; exact ih v t

/-! ### Heap runs refine the value-level model -/

/-- Advancing the iteration from the front: the state after `n + 1` steps
is the state after `n` steps from the stepped seed. -/
lemma lfsrState_succ_front (seed taps : List Nat) (n : Nat) :
    lfsrState seed taps (n + 1) = lfsrState (lfsrStep taps seed).1 taps n := by
  have h := lfsrState_add seed taps n 1
  simpa [lfsrState] using h

/-- Outputs from the front: the `n + 1`-st output is the `n`-th output of
the stepped seed. -/
lemma lfsrOut_succ_front (seed taps : List Nat) (n : Nat) :
    lfsrOut seed taps (n + 1) = lfsrOut (lfsrStep taps seed).1 taps n := by
  unfold lfsrOut
  rw [lfsrState_succ_front]

/-- The block of the first `n` outputs is the pointwise output function on
`0, …, n-1`. -/
lemma lfsrOuts_eq_map (taps : List Nat) :
    ∀ (n : Nat) (seed : List Nat),
      lfsrOuts seed taps n = (List.range n).map (lfsrOut seed taps) := by
  intro n
  induction n with
  | zero => intro seed; rfl
  | succ n ih =>
      intro seed
      rw [List.range_succ_eq_map]
      simp only [lfsrOuts, List.map_cons, List.map_map]
      rw [ih]
      refine List.cons_eq_cons.mpr ⟨rfl, ?_⟩
      exact List.map_congr_left fun k _ => (lfsrOut_succ_front seed taps k).symm

/-- A run of `n` `next`s on an `lfsr` generator object: the produced values
are the value-level outputs of the register the object references, the
referenced cell ends at the value-level state, and every other cell and
the heap size are untouched. -/
lemma lfsrPullsH_spec (o : LfsrObj) : ∀ (n : Nat) (h : Heap) (st : List Nat),
    o.stateRef < h.length → heapGet h o.stateRef = st →
    (lfsrPullsH h o n).2 = lfsrOuts st o.taps n ∧
    (lfsrPullsH h o n).1.length = h.length ∧
    heapGet (lfsrPullsH h o n).1 o.stateRef = lfsrState st o.taps n ∧
    ∀ r, r ≠ o.stateRef → heapGet (lfsrPullsH h o n).1 r = heapGet h r := by
  intro n
  induction n with
  | zero =>
      intro h st hlt hget
      exact ⟨rfl, rfl, hget, fun r _ => rfl⟩
  | succ n ih =>
      intro h st hlt hget
      have hstep : lfsrNextH h o
          = (heapSet h o.stateRef (lfsrStep o.taps st).1, (lfsrStep o.taps st).2) := by
        unfold lfsrNextH
        rw [hget]
      have hlt' : o.stateRef < (heapSet h o.stateRef (lfsrStep o.taps st).1).length := by
        rw [heapSet_length]; exact hlt
      have hget' : heapGet (heapSet h o.stateRef (lfsrStep o.taps st).1) o.stateRef
          = (lfsrStep o.taps st).1 := heapGet_set_self h o.stateRef _ hlt
      obtain ⟨ho, hlen, hst, hfr⟩ := ih (heapSet h o.stateRef (lfsrStep o.taps st).1)
        (lfsrStep o.taps st).1 hlt' hget'
      have hunfold : lfsrPullsH h o (n + 1)
          = ((lfsrPullsH (heapSet h o.stateRef (lfsrStep o.taps st).1) o n).1,
             (lfsrStep o.taps st).2
               :: (lfsrPullsH (heapSet h o.stateRef (lfsrStep o.taps st).1) o n).2) := by
        show ((lfsrPullsH (lfsrNextH h o).1 o n).1,
              (lfsrNextH h o).2 :: (lfsrPullsH (lfsrNextH h o).1 o n).2) = _
        rw [hstep]
      refine ⟨?_, ?_, ?_, ?_⟩
      · rw [hunfold]
        show (lfsrStep o.taps st).2 :: _ = lfsrOuts st o.taps (n + 1)
        rw [ho]
        rfl
      · rw [hunfold]
        simpa [heapSet_length] using hlen
      · rw [hunfold]
        simp only
        rw [hst, lfsrState_succ_front]
      · intro r hr
        rw [hunfold]
        simp only
        rw [hfr r hr, heapGet_set_other h o.stateRef r _ hr]

/-- A run of `n` chips from a running `ca_code_gen` generator whose two
register objects are distinct: the chips are the value-level combiner
chips, the two cells end at the value-level register states, and every
other cell and the heap size are untouched. -/
lemma caPullsH_spec (o : CaObj) (ht1 : o.l1.taps = taps1) (ht2 : o.l2.taps = taps2)
    (hne : o.l1.stateRef ≠ o.l2.stateRef) :
    ∀ (n : Nat) (h : Heap) (st1 st2 : List Nat),
      o.l1.stateRef < h.length → o.l2.stateRef < h.length →
      heapGet h o.l1.stateRef = st1 → heapGet h o.l2.stateRef = st2 →
      (caPullsH h o n).2 = caChips st1 st2 n ∧
      (caPullsH h o n).1.length = h.length ∧
      heapGet (caPullsH h o n).1 o.l1.stateRef = lfsrState st1 taps1 n ∧
      heapGet (caPullsH h o n).1 o.l2.stateRef = lfsrState st2 taps2 n ∧
      ∀ r, r ≠ o.l1.stateRef → r ≠ o.l2.stateRef →
        heapGet (caPullsH h o n).1 r = heapGet h r := by
  intro n
  induction n with
  | zero =>
      intro h st1 st2 _ _ hg1 hg2
      exact ⟨rfl, rfl, hg1, hg2, fun r _ _ => rfl⟩
  | succ n ih =>
      intro h st1 st2 hlt1 hlt2 hg1 hg2
      set h' := heapSet (heapSet h o.l1.stateRef (lfsrStep taps1 st1).1)
        o.l2.stateRef (lfsrStep taps2 st2).1 with hh'
      have hread2 : heapGet (heapSet h o.l1.stateRef (lfsrStep taps1 st1).1)
          o.l2.stateRef = st2 := by
        rw [heapGet_set_other h o.l1.stateRef o.l2.stateRef _ (Ne.symm hne)]
        exact hg2
      have hstep : caNextH h o
          = (h', chipMap ((lfsrStep taps1 st1).2 ^^^ (lfsrStep taps2 st2).2)) := by
        simp only [caNextH, lfsrNextH, ht1, ht2, hg1, hread2, hh']
      have hlt1' : o.l1.stateRef < h'.length := by
        rw [hh', heapSet_length, heapSet_length]; exact hlt1
      have hlt2' : o.l2.stateRef < h'.length := by
        rw [hh', heapSet_length, heapSet_length]; exact hlt2
      have hg1' : heapGet h' o.l1.stateRef = (lfsrStep taps1 st1).1 := by
        rw [hh', heapGet_set_other _ _ _ _ hne, heapGet_set_self _ _ _ hlt1]
      have hg2' : heapGet h' o.l2.stateRef = (lfsrStep taps2 st2).1 := by
        rw [hh', heapGet_set_self _ _ _ (by rw [heapSet_length]; exact hlt2)]
      obtain ⟨hc, hlen, hs1, hs2, hfr⟩ := ih h' _ _ hlt1' hlt2' hg1' hg2'
      have hunfold : caPullsH h o (n + 1)
          = ((caPullsH h' o n).1,
             chipMap ((lfsrStep taps1 st1).2 ^^^ (lfsrStep taps2 st2).2)
               :: (caPullsH h' o n).2) := by
        show ((caPullsH (caNextH h o).1 o n).1,
              (caNextH h o).2 :: (caPullsH (caNextH h o).1 o n).2) = _
        rw [hstep]
      refine ⟨?_, ?_, ?_, ?_, ?_⟩
      · rw [hunfold]
        show chipMap _ :: _ = caChips st1 st2 (n + 1)
        rw [hc]
        rfl
      · rw [hunfold]
        simp only
        rw [hlen, hh', heapSet_length, heapSet_length]
      · rw [hunfold]
        simp only
        rw [hs1, lfsrState_succ_front]
      · rw [hunfold]
        simp only
        rw [hs2, lfsrState_succ_front]
      · intro r hr1 hr2
        rw [hunfold]
        simp only
        rw [hfr r hr1 hr2, hh', heapGet_set_other _ _ _ _ hr2,
          heapGet_set_other _ _ _ _ hr1]

/-! ### The seed table -/

/-- Keys outside 1..32 are not in the `init_codes` dict. -/
lemma init_codes_none (sv : Int) (h : sv < 1 ∨ 32 < sv) : init_codes sv = none := by
  unfold init_codes
  split <;> first | rfl | omega

/-- Every key in 1..32 is in the `init_codes` dict. -/
lemma init_codes_some (sv : Int) (h1 : 1 ≤ sv) (h2 : sv ≤ 32) :
    ∃ row, init_codes sv = some row := by
  interval_cases sv <;> exact ⟨_, rfl⟩

/-- Every row of the `init_codes` dict is binary. -/
lemma init_codes_binary (sv : Int) (row : List Nat) (h : init_codes sv = some row) :
    isBinary row := by
  unfold init_codes at h
  split at h <;>
    first
      | exact Option.noConfusion h
      | (injection h with h; subst h; decide)

/-- Every row of the seed table is 1023-periodic under the LFSR-2 taps. -/
lemma rows_period (sv : Int) (row : List Nat) (h1 : 1 ≤ sv) (h2 : sv ≤ 32)
    (h : init_codes sv = some row) : lfsrState row taps2 1023 = row := by
  interval_cases sv
  · have h2 := Option.some.inj h; subst h2; exact row_period_1
  · have h2 := Option.some.inj h; subst h2; exact row_period_2
  · have h2 := Option.some.inj h; subst h2; exact row_period_3
  · have h2 := Option.some.inj h; subst h2; exact row_period_4
  · have h2 := Option.some.inj h; subst h2; exact row_period_5
  · have h2 := Option.some.inj h; subst h2; exact row_period_6
  · have h2 := Option.some.inj h; subst h2; exact row_period_7
  · have h2 := Option.some.inj h; subst h2; exact row_period_8
  · have h2 := Option.some.inj h; subst h2; exact row_period_9
  · have h2 := Option.some.inj h; subst h2; exact row_period_10
  · have h2 := Option.some.inj h; subst h2; exact row_period_11
  · have h2 := Option.some.inj h; subst h2; exact row_period_12
  · have h2 := Option.some.inj h; subst h2; exact row_period_13
  · have h2 := Option.some.inj h; subst h2; exact row_period_14
  · have h2 := Option.some.inj h; subst h2; exact row_period_15
  · have h2 := Option.some.inj h; subst h2; exact row_period_16
  · have h2 := Option.some.inj h; subst h2; exact row_period_17
  · have h2 := Option.some.inj h; subst h2; exact row_period_18
  · have h2 := Option.some.inj h; subst h2; exact row_period_19
  · have h2 := Option.some.inj h; subst h2; exact row_period_20
  · have h2 := Option.some.inj h; subst h2; exact row_period_21
  · have h2 := Option.some.inj h; subst h2; exact row_period_22
  · have h2 := Option.some.inj h; subst h2; exact row_period_23
  · have h2 := Option.some.inj h; subst h2; exact row_period_24
  · have h2 := Option.some.inj h; subst h2; exact row_period_25
  · have h2 := Option.some.inj h; subst h2; exact row_period_26
  · have h2 := Option.some.inj h; subst h2; exact row_period_27
  · have h2 := Option.some.inj h; subst h2; exact row_period_28
  · have h2 := Option.some.inj h; subst h2; exact row_period_29
  · have h2 := Option.some.inj h; subst h2; exact row_period_30
  · have h2 := Option.some.inj h; subst h2; exact row_period_31
  · have h2 := Option.some.inj h; subst h2; exact row_period_32

/-! ### Claim theorems -/

/-- C1: for every SV id in 1..32, the chip sequence of `ca_code_gen(sv)`
is periodic with period 1023 — chip `i + 1023` equals chip `i` for every
`i` in 0..1022. -/
theorem caCodeGen_period (sv : Int) (h1 : 1 ≤ sv) (h2 : sv ≤ 32)
    (i : Nat) (hi : i ≤ 1022) : caChip sv (i + 1023) = caChip sv i := by
  obtain ⟨row, hrow⟩ := init_codes_some sv h1 h2
  unfold caChip
  rw [hrow]
  show chipMap (lfsrOut seed1 taps1 (i + 1023) ^^^ lfsrOut row taps2 (i + 1023))
      = chipMap (lfsrOut seed1 taps1 i ^^^ lfsrOut row taps2 i)
  rw [lfsrOut_period seed1 taps1 g1_period i,
    lfsrOut_period row taps2 (rows_period sv row h1 h2 hrow) i]

/-- Witness for `caCodeGen_period`: SV 7 at chip index 5. -/
theorem caCodeGen_period_witness :
    (1 : Int) ≤ 7 ∧ (7 : Int) ≤ 32 ∧ (5 : Nat) ≤ 1022 ∧
      caChip 7 (5 + 1023) = caChip 7 5 :=
  ⟨by decide, by decide, by decide,
    caCodeGen_period 7 (by decide) (by decide) 5 (by decide)⟩

/-- C2: on a 10-bit register with a 10-bit tap mask, a step outputs the
previous rearmost (last) bit and inserts at the front the XOR of the state
bits at the tapped positions; and for seed ten ones with taps at
zero-indexed positions 2 and 9, the first three outputs are 1, 1, 1. -/
theorem lfsr_step_contract (state taps : List Nat)
    (hs : state.length = 10) (ht : taps.length = 10)
    (hbs : isBinary state) (hbt : isBinary taps) :
    (lfsrStep taps state).2 = state.getLastD 0 ∧
    (lfsrStep taps state).1 = taggedXor (state.zip taps) :: state.dropLast ∧
    lfsrOut [1, 1, 1, 1, 1, 1, 1, 1, 1, 1] [0, 0, 1, 0, 0, 0, 0, 0, 0, 1] 0 = 1 ∧
    lfsrOut [1, 1, 1, 1, 1, 1, 1, 1, 1, 1] [0, 0, 1, 0, 0, 0, 0, 0, 0, 1] 1 = 1 ∧
    lfsrOut [1, 1, 1, 1, 1, 1, 1, 1, 1, 1] [0, 0, 1, 0, 0, 0, 0, 0, 0, 1] 2 = 1 := by
  have hne : state ≠ [] := by
    intro he
    rw [he] at hs
    simp at hs
  rw [lfsrStep_eq taps state hne, feedback_eq_taggedXor]
  exact ⟨rfl, rfl, by decide, by decide, by decide⟩

/-- Witness for `lfsr_step_contract`: the manually verified scenario seed
ten ones, taps at zero-indexed positions 2 and 9. -/
theorem lfsr_step_contract_witness :
    (lfsrStep [0, 0, 1, 0, 0, 0, 0, 0, 0, 1] [1, 1, 1, 1, 1, 1, 1, 1, 1, 1]).2
        = ([1, 1, 1, 1, 1, 1, 1, 1, 1, 1] : List Nat).getLastD 0 ∧
    (lfsrStep [0, 0, 1, 0, 0, 0, 0, 0, 0, 1] [1, 1, 1, 1, 1, 1, 1, 1, 1, 1]).1
        = taggedXor (([1, 1, 1, 1, 1, 1, 1, 1, 1, 1] : List Nat).zip
            [0, 0, 1, 0, 0, 0, 0, 0, 0, 1])
          :: ([1, 1, 1, 1, 1, 1, 1, 1, 1, 1] : List Nat).dropLast ∧
    lfsrOut [1, 1, 1, 1, 1, 1, 1, 1, 1, 1] [0, 0, 1, 0, 0, 0, 0, 0, 0, 1] 0 = 1 ∧
    lfsrOut [1, 1, 1, 1, 1, 1, 1, 1, 1, 1] [0, 0, 1, 0, 0, 0, 0, 0, 0, 1] 1 = 1 ∧
    lfsrOut [1, 1, 1, 1, 1, 1, 1, 1, 1, 1] [0, 0, 1, 0, 0, 0, 0, 0, 0, 1] 2 = 1 :=
  lfsr_step_contract [1, 1, 1, 1, 1, 1, 1, 1, 1, 1] [0, 0, 1, 0, 0, 0, 0, 0, 0, 1]
    (by decide) (by decide) (by decide) (by decide)

/-- C3: the `n`-th chip of `ca_code_gen(sv)` is −1 when the XOR of the two
register outputs is 0 and +1 when it is 1, where LFSR-1 runs from ten ones
with taps active exactly at zero-indexed positions 2 and 9, and LFSR-2
runs from the SV's seed-table row with taps active exactly at zero-indexed
positions 1, 2, 5, 7, 8, 9. -/
theorem caChip_combiner (sv : Int) (row : List Nat) (n : Nat)
    (h1 : 1 ≤ sv) (h2 : sv ≤ 32) (hrow : init_codes sv = some row) :
    (lfsrOut seed1 taps1 n ^^^ lfsrOut row taps2 n = 0 →
      caChip sv n = some (-1)) ∧
    (lfsrOut seed1 taps1 n ^^^ lfsrOut row taps2 n = 1 →
      caChip sv n = some 1) ∧
    seed1 = List.replicate 10 1 ∧
    (∀ i, i < 10 → (taps1.getD i 0 = 1 ↔ i = 2 ∨ i = 9)) ∧
    (∀ i, i < 10 →
      (taps2.getD i 0 = 1 ↔ i = 1 ∨ i = 2 ∨ i = 5 ∨ i = 7 ∨ i = 8 ∨ i = 9)) := by
  refine ⟨?_, ?_, rfl, by decide, by decide⟩ <;>
    · intro hx
      unfold caChip
      rw [hrow]
      show chipMap (lfsrOut seed1 taps1 n ^^^ lfsrOut row taps2 n) = _
      rw [hx]
      rfl

/-- Witness for `caChip_combiner`: SV 5 at chip index 0. -/
theorem caChip_combiner_witness :
    ((lfsrOut seed1 taps1 0 ^^^ lfsrOut [0, 0, 1, 0, 0, 1, 0, 1, 1, 0] taps2 0 = 0 →
      caChip 5 0 = some (-1)) ∧
    (lfsrOut seed1 taps1 0 ^^^ lfsrOut [0, 0, 1, 0, 0, 1, 0, 1, 1, 0] taps2 0 = 1 →
      caChip 5 0 = some 1) ∧
    seed1 = List.replicate 10 1 ∧
    (∀ i, i < 10 → (taps1.getD i 0 = 1 ↔ i = 2 ∨ i = 9)) ∧
    (∀ i, i < 10 →
      (taps2.getD i 0 = 1 ↔ i = 1 ∨ i = 2 ∨ i = 5 ∨ i = 7 ∨ i = 8 ∨ i = 9))) :=
  caChip_combiner 5 [0, 0, 1, 0, 0, 1, 0, 1, 1, 0] 0 (by decide) (by decide) rfl

/-- C7: from a 10-element seed, the internal register has length exactly
10 before and after every step, whatever the taps. -/
theorem lfsr_length_invariant (seed taps : List Nat) (h : seed.length = 10)
    (n : Nat) : (lfsrState seed taps n).length = 10 := by
  induction n with
  | zero => exact h
  | succ n ih =>
      show (lfsrStep taps (lfsrState seed taps n)).1.length = 10
      rw [lfsrStep_length]
      exact ih

/-- Witness for `lfsr_length_invariant`: the all-ones seed after 4 steps. -/
theorem lfsr_length_invariant_witness :
    (lfsrState [1, 1, 1, 1, 1, 1, 1, 1, 1, 1] [0, 0, 1, 0, 0, 0, 0, 0, 0, 1] 4).length
      = 10 :=
  lfsr_length_invariant [1, 1, 1, 1, 1, 1, 1, 1, 1, 1] [0, 0, 1, 0, 0, 0, 0, 0, 0, 1]
    (by decide) 4

/-- C8: every chip of `ca_code_gen(sv)` for an SV id in 1..32 is exactly
−1 or +1, and every raw `lfsr` value from a binary seed and binary taps is
exactly 0 or 1. -/
theorem alphabet :
    (∀ sv : Int, 1 ≤ sv → sv ≤ 32 →
      ∀ n, caChip sv n = some (-1) ∨ caChip sv n = some 1) ∧
    (∀ seed taps : List Nat, isBinary seed → isBinary taps →
      ∀ n, lfsrOut seed taps n = 0 ∨ lfsrOut seed taps n = 1) := by
  constructor
  · intro sv h1 h2 n
    obtain ⟨row, hrow⟩ := init_codes_some sv h1 h2
    have hb1 := lfsrOut_binary seed1 taps1 (by decide) n
    have hb2 := lfsrOut_binary row taps2 (init_codes_binary sv row hrow) n
    have hx := xor_binary hb1 hb2
    unfold caChip
    rw [hrow]
    show chipMap (lfsrOut seed1 taps1 n ^^^ lfsrOut row taps2 n) = some (-1)
        ∨ chipMap (lfsrOut seed1 taps1 n ^^^ lfsrOut row taps2 n) = some 1
    rcases hx with h | h <;> rw [h]
    · left; rfl
    · right; rfl
  · intro seed taps hs _ n
    exact lfsrOut_binary seed taps hs n

/-- Witness for `alphabet`: SV 3 at chip 4, and an alternating binary
register. -/
theorem alphabet_witness :
    (caChip 3 4 = some (-1) ∨ caChip 3 4 = some 1) ∧
    (lfsrOut [0, 1, 0, 1, 0, 1, 0, 1, 0, 1] [1, 0, 0, 0, 0, 0, 0, 0, 0, 1] 2 = 0 ∨
     lfsrOut [0, 1, 0, 1, 0, 1, 0, 1, 0, 1] [1, 0, 0, 0, 0, 0, 0, 0, 0, 1] 2 = 1) :=
  ⟨alphabet.1 3 (by decide) (by decide) 4,
   alphabet.2 [0, 1, 0, 1, 0, 1, 0, 1, 0, 1] [1, 0, 0, 0, 0, 0, 0, 0, 0, 1]
     (by decide) (by decide) 2⟩

/-- C4 (code evidence): `lfsr` performs no length validation. The
length-mismatched call `lfsr([1]*9, [0]*10)` does not fail — it produces
values (the first three are 1), because `zip` silently truncates the
state/taps pairing to the 9 common positions, and the register stays at
length 9 forever. -/
theorem lfsr_accepts_length_mismatch :
    lfsrOut [1, 1, 1, 1, 1, 1, 1, 1, 1] [0, 0, 0, 0, 0, 0, 0, 0, 0, 0] 0 = 1 ∧
    lfsrOut [1, 1, 1, 1, 1, 1, 1, 1, 1] [0, 0, 0, 0, 0, 0, 0, 0, 0, 0] 1 = 1 ∧
    lfsrOut [1, 1, 1, 1, 1, 1, 1, 1, 1] [0, 0, 0, 0, 0, 0, 0, 0, 0, 0] 2 = 1 ∧
    (lfsrState [1, 1, 1, 1, 1, 1, 1, 1, 1] [0, 0, 0, 0, 0, 0, 0, 0, 0, 0] 3).length
      = 9 ∧
    (([1, 1, 1, 1, 1, 1, 1, 1, 1] : List Nat).zip
      ([0, 0, 0, 0, 0, 0, 0, 0, 0, 0] : List Nat)).length = 9 := by
  decide

/-- C6 (code evidence): `lfsr` aliases and mutates the caller's seed list.
One `next` on a generator built over the caller's list object rewrites
that object in place — the caller's list is no longer the seed it passed —
and a second generator sharing the same list object observes outputs that
differ from the outputs of an unshared register with the same seed. -/
theorem lfsr_mutates_caller_seed :
    heapGet (lfsrNextH [[1, 1, 1, 1, 1, 1, 1, 1, 1, 1]]
        (lfsr 0 [0, 0, 1, 0, 0, 0, 0, 0, 0, 1])).1 0
      = [0, 1, 1, 1, 1, 1, 1, 1, 1, 1] ∧
    ([0, 1, 1, 1, 1, 1, 1, 1, 1, 1] : List Nat) ≠ [1, 1, 1, 1, 1, 1, 1, 1, 1, 1] ∧
    (lfsrPullsH
        (lfsrPullsH [[1, 1, 1, 1, 1, 1, 1, 1, 1, 1]]
          (lfsr 0 [0, 0, 1, 0, 0, 0, 0, 0, 0, 1]) 10).1
        (lfsr 0 [0, 0, 1, 0, 0, 0, 0, 0, 0, 1]) 10).2
      ≠ lfsrOuts [1, 1, 1, 1, 1, 1, 1, 1, 1, 1] [0, 0, 1, 0, 0, 0, 0, 0, 0, 1] 10 := by
  decide

/-- C10: for an SV id outside 1..32, calling `ca_code_gen(sv)` itself
raises nothing — it returns the suspended generator object — and the
`KeyError` from the seed-table lookup surfaces when the first chip is
requested, so the sequence never yields a chip. -/
theorem ca_code_gen_lazy_failure (sv : Int) (h : sv < 1 ∨ 32 < sv) :
    ca_code_gen sv = ⟨sv⟩ ∧
    caFirstChip (ca_code_gen sv) = Except.error PyErr.keyError ∧
    ∀ c : Int, caFirstChip (ca_code_gen sv) ≠ Except.ok c := by
  have he : caFirstChip (ca_code_gen sv) = Except.error PyErr.keyError := by
    unfold caFirstChip ca_code_gen
    rw [init_codes_none sv h]
  exact ⟨rfl, he, fun c hc => by rw [he] at hc; exact Except.noConfusion hc⟩

/-- Witness for `ca_code_gen_lazy_failure` at SV id 33. -/
theorem ca_code_gen_lazy_failure_witness :
    ca_code_gen 33 = ⟨33⟩ ∧
    caFirstChip (ca_code_gen 33) = Except.error PyErr.keyError ∧
    ∀ c : Int, caFirstChip (ca_code_gen 33) ≠ Except.ok c :=
  ca_code_gen_lazy_failure 33 (by decide)

/-- C5 counterexample: at the claim's own example inputs 0 and 33, the
construction call `ca_code_gen(sv)` does not fail — it returns a generator
object — and the invalid-SV `KeyError` appears only at the first chip
request. -/
theorem ca_code_gen_constructs_outside_range :
    ca_code_gen 0 = ⟨0⟩ ∧ ca_code_gen 33 = ⟨33⟩ ∧
    caFirstChip (ca_code_gen 0) = Except.error PyErr.keyError ∧
    caFirstChip (ca_code_gen 33) = Except.error PyErr.keyError :=
  ⟨rfl, rfl, rfl, rfl⟩

/-- C5 (amended): for every SV id outside 1..32, `ca_code_gen(sv)` itself
returns a generator object; the invalid-SV lookup failure (`KeyError` on
the seed table) is raised at the first chip request, before any chip is
produced, and is a hard error, not a silent default. -/
theorem ca_code_gen_invalid_sv (sv : Int) (h : ¬(1 ≤ sv ∧ sv ≤ 32)) :
    ca_code_gen sv = ⟨sv⟩ ∧
    caFirstChip (ca_code_gen sv) = Except.error PyErr.keyError ∧
    ∀ c : Int, caFirstChip (ca_code_gen sv) ≠ Except.ok c := by
  have h' : sv < 1 ∨ 32 < sv := by omega
  have he : caFirstChip (ca_code_gen sv) = Except.error PyErr.keyError := by
    unfold caFirstChip ca_code_gen
    rw [init_codes_none sv h']
  exact ⟨rfl, he, fun c hc => by rw [he] at hc; exact Except.noConfusion hc⟩

/-- Witness for `ca_code_gen_invalid_sv` at SV id 0. -/
theorem ca_code_gen_invalid_sv_witness :
    ca_code_gen 0 = ⟨0⟩ ∧
    caFirstChip (ca_code_gen 0) = Except.error PyErr.keyError ∧
    ∀ c : Int, caFirstChip (ca_code_gen 0) ≠ Except.ok c :=
  ca_code_gen_invalid_sv 0 (by decide)

/-- C9: determinism and instance independence. Two `ca_code_gen`
generators for the same SV, started independently (each run of the body
allocates fresh list objects for `[1] * 10` and the dict row), produce the
identical chip sequence — even when the second is pulled only after the
first has been pulled — and both sequences are the pure value-level
combiner chips of the SV's seed row. Likewise, two `lfsr` generators over
separately allocated list objects holding the same seed values, with the
same taps, produce the identical output sequence, the pure value-level
function of seed and taps alone. -/
theorem ca_code_gen_deterministic (sv : Int) (row : List Nat) (n : Nat)
    (hA : Heap) (A : CaObj) (hB : Heap) (B : CaObj)
    (hrow : init_codes sv = some row)
    (hstartA : caStartH [] sv = some (hA, A))
    (hstartB : caStartH hA sv = some (hB, B)) :
    ((caPullsH hB A n).2 = caChips seed1 row n ∧
     (caPullsH (caPullsH hB A n).1 B n).2 = caChips seed1 row n) ∧
    (∀ (h0 : Heap) (seed taps : List Nat) (m : Nat),
      (lfsrPullsH (h0 ++ [seed, seed]) (lfsr h0.length taps) m).2
        = lfsrOuts seed taps m ∧
      (lfsrPullsH (lfsrPullsH (h0 ++ [seed, seed]) (lfsr h0.length taps) m).1
          (lfsr (h0.length + 1) taps) m).2 = lfsrOuts seed taps m) := by
  constructor
  · have eA : caStartH [] sv
        = some ([seed1, row], ⟨lfsr 0 taps1, lfsr 1 taps2⟩) := by
      unfold caStartH
      rw [hrow]
      rfl
    rw [eA] at hstartA
    have hpA := Option.some.inj hstartA
    have e1 : [seed1, row] = hA := congrArg Prod.fst hpA
    have e2 : (⟨lfsr 0 taps1, lfsr 1 taps2⟩ : CaObj) = A := congrArg Prod.snd hpA
    subst e1
    subst e2
    have eB : caStartH [seed1, row] sv
        = some ([seed1, row, seed1, row], ⟨lfsr 2 taps1, lfsr 3 taps2⟩) := by
      unfold caStartH
      rw [hrow]
      rfl
    rw [eB] at hstartB
    have hpB := Option.some.inj hstartB
    have e3 : [seed1, row, seed1, row] = hB := congrArg Prod.fst hpB
    have e4 : (⟨lfsr 2 taps1, lfsr 3 taps2⟩ : CaObj) = B := congrArg Prod.snd hpB
    subst e3
    subst e4
    obtain ⟨hcA, hlenA, _, _, hfrA⟩ :=
      caPullsH_spec ⟨lfsr 0 taps1, lfsr 1 taps2⟩ rfl rfl (by decide) n
        [seed1, row, seed1, row] seed1 row
        (by show (0 : Nat) < 4; decide) (by show (1 : Nat) < 4; decide) rfl rfl
    obtain ⟨hcB, _, _, _, _⟩ :=
      caPullsH_spec ⟨lfsr 2 taps1, lfsr 3 taps2⟩ rfl rfl (by decide) n
        (caPullsH [seed1, row, seed1, row] ⟨lfsr 0 taps1, lfsr 1 taps2⟩ n).1
        seed1 row
        (by show (2 : Nat) < _; rw [hlenA]; show (2 : Nat) < 4; decide)
        (by show (3 : Nat) < _; rw [hlenA]; show (3 : Nat) < 4; decide)
        (by show heapGet _ 2 = seed1
            rw [hfrA 2 (by decide) (by decide)]
            rfl)
        (by show heapGet _ 3 = row
            rw [hfrA 3 (by decide) (by decide)]
            rfl)
    exact ⟨hcA, hcB⟩
  · intro h0 seed taps m
    have hlt1 : (lfsr h0.length taps).stateRef < (h0 ++ [seed, seed]).length := by
      show h0.length < (h0 ++ [seed, seed]).length
      simp
    have hget1 : heapGet (h0 ++ [seed, seed]) (lfsr h0.length taps).stateRef = seed :=
      heapGet_append_self h0 seed [seed]
    obtain ⟨ho1, hlen1, _, hfr1⟩ :=
      lfsrPullsH_spec (lfsr h0.length taps) m (h0 ++ [seed, seed]) seed hlt1 hget1
    refine ⟨ho1, ?_⟩
    have hlt2 : (lfsr (h0.length + 1) taps).stateRef
        < (lfsrPullsH (h0 ++ [seed, seed]) (lfsr h0.length taps) m).1.length := by
      show h0.length + 1 < _
      rw [hlen1]
      simp
    have hg2 : heapGet (h0 ++ [seed, seed]) (h0.length + 1) = seed := by
      have e : h0 ++ [seed, seed] = (h0 ++ [seed]) ++ [seed] := by simp
      have l : (h0 ++ [seed]).length = h0.length + 1 := by simp
      rw [e, ← l]
      exact heapGet_append_self (h0 ++ [seed]) seed []
    have hget2 : heapGet (lfsrPullsH (h0 ++ [seed, seed]) (lfsr h0.length taps) m).1
        (lfsr (h0.length + 1) taps).stateRef = seed := by
      show heapGet _ (h0.length + 1) = seed
      rw [hfr1 (h0.length + 1) (by show h0.length + 1 ≠ h0.length; omega)]
      exact hg2
    obtain ⟨ho2, _, _, _⟩ :=
      lfsrPullsH_spec (lfsr (h0.length + 1) taps) m _ seed hlt2 hget2
    exact ho2

/-- Witness for `ca_code_gen_deterministic`: SV 1, two generators, two
chips each. -/
theorem ca_code_gen_deterministic_witness :
    ((caPullsH [seed1, [1, 1, 1, 1, 1, 0, 1, 1, 0, 0], seed1,
          [1, 1, 1, 1, 1, 0, 1, 1, 0, 0]]
        ⟨lfsr 0 taps1, lfsr 1 taps2⟩ 2).2
        = caChips seed1 [1, 1, 1, 1, 1, 0, 1, 1, 0, 0] 2 ∧
     (caPullsH
        (caPullsH [seed1, [1, 1, 1, 1, 1, 0, 1, 1, 0, 0], seed1,
            [1, 1, 1, 1, 1, 0, 1, 1, 0, 0]]
          ⟨lfsr 0 taps1, lfsr 1 taps2⟩ 2).1
        ⟨lfsr 2 taps1, lfsr 3 taps2⟩ 2).2
        = caChips seed1 [1, 1, 1, 1, 1, 0, 1, 1, 0, 0] 2) ∧
    (∀ (h0 : Heap) (seed taps : List Nat) (m : Nat),
      (lfsrPullsH (h0 ++ [seed, seed]) (lfsr h0.length taps) m).2
        = lfsrOuts seed taps m ∧
      (lfsrPullsH (lfsrPullsH (h0 ++ [seed, seed]) (lfsr h0.length taps) m).1
          (lfsr (h0.length + 1) taps) m).2 = lfsrOuts seed taps m) :=
  ca_code_gen_deterministic 1 [1, 1, 1, 1, 1, 0, 1, 1, 0, 0] 2
    [seed1, [1, 1, 1, 1, 1, 0, 1, 1, 0, 0]] ⟨lfsr 0 taps1, lfsr 1 taps2⟩
    [seed1, [1, 1, 1, 1, 1, 0, 1, 1, 0, 0], seed1, [1, 1, 1, 1, 1, 0, 1, 1, 0, 0]]
    ⟨lfsr 2 taps1, lfsr 3 taps2⟩ rfl rfl rfl
